import Mathlib

/-!
# PodInfoLookup

A shallow embedding of `main.go`: the controller that mirrors every pod of
the `default` namespace into a `Testcr` custom resource named after the MD5
of the pod's `namespace/name` key.

* `md5V` with the digest of `crypto/md5` (RFC 1321) and `encoding/hex`;
* `NewTestcr`, the payload builder;
* the body of `worker`, written against the three collaborators it is coded
  against (`workqueue.RateLimitingInterface`, `cache.Indexer`,
  `dynamic.Interface`), producing the trace of calls it makes;
* the event handlers registered in `main`.
-/

namespace PodInfoLookup

/-! ## `crypto/md5`, `encoding/hex` and `md5V` -/

/-- Left-rotation amount of each of the 64 MD5 steps. -/
def md5Shift : List Nat :=
  [7, 12, 17, 22, 7, 12, 17, 22, 7, 12, 17, 22, 7, 12, 17, 22,
   5, 9, 14, 20, 5, 9, 14, 20, 5, 9, 14, 20, 5, 9, 14, 20,
   4, 11, 16, 23, 4, 11, 16, 23, 4, 11, 16, 23, 4, 11, 16, 23,
   6, 10, 15, 21, 6, 10, 15, 21, 6, 10, 15, 21, 6, 10, 15, 21]

/-- Additive constant of each of the 64 MD5 steps, `floor (2^32 * |sin (i + 1)|)`. -/
def md5Table : List Nat :=
  [0xd76aa478, 0xe8c7b756, 0x242070db, 0xc1bdceee,
   0xf57c0faf, 0x4787c62a, 0xa8304613, 0xfd469501,
   0x698098d8, 0x8b44f7af, 0xffff5bb1, 0x895cd7be,
   0x6b901122, 0xfd987193, 0xa679438e, 0x49b40821,
   0xf61e2562, 0xc040b340, 0x265e5a51, 0xe9b6c7aa,
   0xd62f105d, 0x02441453, 0xd8a1e681, 0xe7d3fbc8,
   0x21e1cde6, 0xc33707d6, 0xf4d50d87, 0x455a14ed,
   0xa9e3e905, 0xfcefa3f8, 0x676f02d9, 0x8d2a4c8a,
   0xfffa3942, 0x8771f681, 0x6d9d6122, 0xfde5380c,
   0xa4beea44, 0x4bdecfa9, 0xf6bb4b60, 0xbebfbc70,
   0x289b7ec6, 0xeaa127fa, 0xd4ef3085, 0x04881d05,
   0xd9d4d039, 0xe6db99e5, 0x1fa27cf8, 0xc4ac5665,
   0xf4292244, 0x432aff97, 0xab9423a7, 0xfc93a039,
   0x655b59c3, 0x8f0ccc92, 0xffeff47d, 0x85845dd1,
   0x6fa87e4f, 0xfe2ce6e0, 0xa3014314, 0x4e0811a1,
   0xf7537e82, 0xbd3af235, 0x2ad7d2bb, 0xeb86d391]

/-- Bitwise complement of a `uint32`. -/
def not32 (x : Nat) : Nat := x ^^^ 0xffffffff

/-- Rotation of a `uint32` to the left by `s` bits (`bits.RotateLeft32`). -/
def rotl32 (x s : Nat) : Nat := ((x <<< s) ||| (x >>> (32 - s))) % 2 ^ 32

/-- The four `uint32` chaining words of an MD5 digest in progress. -/
structure Digest where
  a : Nat
  b : Nat
  c : Nat
  d : Nat
deriving DecidableEq, Repr

/-- Initial chaining value set by `md5.New`. -/
def md5Init : Digest := ⟨0x67452301, 0xefcdab89, 0x98badcfe, 0x10325476⟩

/-- Little-endian `uint32` read from the first four bytes of `bs`. -/
def leWord (bs : List Nat) : Nat :=
  bs.getD 0 0 + bs.getD 1 0 * 2 ^ 8 + bs.getD 2 0 * 2 ^ 16 + bs.getD 3 0 * 2 ^ 24

/-- The sixteen message words of a 64-byte block. -/
def blockWords (block : List Nat) : List Nat :=
  (List.range 16).map fun j => leWord ((block.drop (4 * j)).take 4)

/-- Step `i` (0 ≤ i < 64) of the MD5 compression function on message words `m`. -/
def md5Step (m : List Nat) (st : Digest) (i : Nat) : Digest :=
  let f :=
    if i < 16 then (st.b &&& st.c) ||| (not32 st.b &&& st.d)
    else if i < 32 then (st.d &&& st.b) ||| (not32 st.d &&& st.c)
    else if i < 48 then st.b ^^^ st.c ^^^ st.d
    else st.c ^^^ (st.b ||| not32 st.d)
  let g :=
    if i < 16 then i
    else if i < 32 then (5 * i + 1) % 16
    else if i < 48 then (3 * i + 5) % 16
    else (7 * i) % 16
  let t := (f + st.a + md5Table.getD i 0 + m.getD g 0) % 2 ^ 32
  ⟨st.d, (st.b + rotl32 t (md5Shift.getD i 0)) % 2 ^ 32, st.b, st.c⟩

/-- Compression of one 64-byte block into the chaining value. -/
def md5Block (st : Digest) (block : List Nat) : Digest :=
  let r := (List.range 64).foldl (md5Step (blockWords block)) st
  ⟨(st.a + r.a) % 2 ^ 32, (st.b + r.b) % 2 ^ 32, (st.c + r.c) % 2 ^ 32, (st.d + r.d) % 2 ^ 32⟩

/-- The `n` low bytes of `x`, least significant first. -/
def leBytes (n : Nat) (x : Nat) : List Nat :=
  (List.range n).map fun j => (x >>> (8 * j)) % 256

/-- Message followed by the MD5 padding: `0x80`, zeros up to 56 modulo 64, and
the bit length as a little-endian `uint64`. -/
def md5Pad (msg : List Nat) : List Nat :=
  msg ++ 0x80 :: List.replicate ((119 - msg.length % 64) % 64) 0
    ++ leBytes 8 ((8 * msg.length) % 2 ^ 64)

/-- The first `n` consecutive 64-byte blocks of `bs`. -/
def chunks64 : Nat → List Nat → List (List Nat)
  | 0, _ => []
  | n + 1, bs => bs.take 64 :: chunks64 n (bs.drop 64)

/-- The 16-byte digest: `h := md5.New(); h.Write(msg); h.Sum(nil)`. -/
def md5Sum (msg : List Nat) : List Nat :=
  let p := md5Pad msg
  let st := (chunks64 (p.length / 64) p).foldl md5Block md5Init
  leBytes 4 st.a ++ leBytes 4 st.b ++ leBytes 4 st.c ++ leBytes 4 st.d

/-- Digit table of `encoding/hex`. -/
def hextable : List Char :=
  ['0', '1', '2', '3', '4', '5', '6', '7', '8', '9', 'a', 'b', 'c', 'd', 'e', 'f']

/-- Two digits per byte, high nibble first (`hex.EncodeToString`). -/
def hexEncode : List Nat → List Char
  | [] => []
  | v :: vs => hextable.getD (v / 16) '0' :: hextable.getD (v % 16) '0' :: hexEncode vs

/-- Bytes of a Go string, `[]byte(str)`. -/
def goBytes (str : String) : List Nat := str.toUTF8.data.toList.map UInt8.toNat

/-- Source: `md5V` (main.go:212-216). -/
def md5V (str : String) : String := String.mk (hexEncode (md5Sum (goBytes str)))

/-! ## Data model -/

/-- Dynamic value of an `interface{}` argument of `NewTestcr`: the call in
`worker` passes Go strings and one `types.UID`. -/
inductive Value where
  | str (s : String)
  | uid (u : String)
deriving DecidableEq, Repr

/-- The fields of `*v1.Pod` read by `worker`. -/
structure Pod where
  Name : String
  PodIP : String
  UID : String
deriving DecidableEq, Repr

/-- The `unstructured.Unstructured` built by `NewTestcr`: a nested map with a
fixed set of keys, one field per leaf (`metadata.name` is `metadataName`,
`spec.podip` is `specPodip`, and so on). -/
structure Unstructured where
  kind : String
  apiVersion : String
  metadataName : Value
  metadataNamespace : String
  specPodip : Value
  specPoduid : Value
  specPodkey : Value
  specPodname : Value
deriving DecidableEq, Repr

/-- Source: `NewTestcr(name, ip, uid, key interface{})` (main.go:193-210). -/
def NewTestcr (name ip uid key : Value) : Unstructured where
  kind := "Testcr"
  apiVersion := "stable.example.com/v1"
  metadataName := name
  metadataNamespace := "default"
  specPodip := ip
  specPoduid := uid
  specPodkey := key
  specPodname := name

/-- Result triple `(item, exists, err)` of `podIndexer.GetByKey`. -/
structure GetByKeyResult where
  item : Option Pod
  found : Bool
  err : Option String
deriving DecidableEq, Repr

/-- One observable action of the program: a call on a collaborator together
with what the collaborator answered, or a line written to standard output. -/
inductive Event where
  /-- Call of `workQueue.Get()` that returned `(key, quit)`. -/
  | Get (key : String) (quit : Bool)
  /-- Call of `workQueue.Done(key)`. -/
  | Done (key : String)
  /-- Call of `workQueue.Add(key)`. -/
  | Add (key : String)
  /-- Call of `workQueue.AddRateLimited(key)`, the rate-limited re-add of the interface. -/
  | AddRateLimited (key : String)
  /-- Call of `podIndexer.GetByKey(key)` and its result. -/
  | GetByKey (key : String) (res : GetByKeyResult)
  /-- Call of `res.Create(obj, CreateOptions{})` and the error it returned. -/
  | Create (obj : Unstructured) (err : Option String)
  /-- Call of `res.Delete(name, &DeleteOptions{})` and the error it returned. -/
  | Delete (name : String) (err : Option String)
  /-- Call of `res.List(ListOptions{})` and the error it returned. -/
  | List (err : Option String)
  /-- Call of `fmt.Println(args...)`. -/
  | Println (args : List String)
  /-- Call of `fmt.Println(object)` for one listed item. -/
  | PrintlnObject (obj : Unstructured)
  /-- Call of `fmt.Printf(format, obj, err)`; the object argument is not recorded. -/
  | Printf (format : String) (err : String)
deriving DecidableEq, Repr

/-- The methods of `workqueue.RateLimitingInterface` that the program calls,
over a queue state `Q`. `Get` answers `none` while it blocks. -/
structure RateLimitingInterface (Q : Type) where
  Add : Q → String → Q
  Get : Q → Option ((String × Bool) × Q)
  Done : Q → String → Q

/-- Answers of the collaborators that `worker` only reads from or writes to:
the pod indexer and the dynamic client for `testrcGVR`. -/
structure Env where
  GetByKey : String → GetByKeyResult
  Create : Unstructured → Option String
  Delete : String → Option String
  List : Except String (List Unstructured)

/-! ## `worker` -/

/-- The statements of the anonymous function in `worker` that follow
`defer workQueue.Done(key)` (main.go:156-188). -/
def workerBody (env : Env) (key : String) : List Event :=
  let r := env.GetByKey key
  Event.GetByKey key r ::
  match r.err with
  | some _ => [Event.Println ["errror cccc"]]
  | none =>
    (match r.item with
     | some currentPod =>
       let tct := NewTestcr (Value.str (md5V key)) (Value.str currentPod.Name)
         (Value.str currentPod.PodIP) (Value.uid currentPod.UID)
       [Event.Println ["add: ", key], Event.Create tct (env.Create tct)]
     | none =>
       [Event.Println ["delete: ", key], Event.Delete (md5V key) (env.Delete (md5V key))])
    ++
    (match env.List with
     | Except.error err => [Event.List (some err), Event.Println [err]]
     | Except.ok items =>
       Event.List none :: Event.Println ["\ncurrent list:"] :: items.map Event.PrintlnObject)

/-- One call of the anonymous function in `worker` (main.go:147-189): the
trace it produces and the queue state it leaves, or `none` while `Get`
blocks. The deferred `Done` runs when the function returns. -/
def workerIteration {Q : Type} (wq : RateLimitingInterface Q) (env : Env) (q : Q) :
    Option (List Event × Q) :=
  match wq.Get q with
  | none => none
  | some ((key, quit), q1) =>
    if quit then
      some ([Event.Get key quit, Event.Println ["queue shutdown"]], q1)
    else
      some (Event.Get key quit :: workerBody env key ++ [Event.Done key], wq.Done q1 key)

/-- Source: `worker` (main.go:144-191), the first `n` rounds of its
`for { func() { ... }() }` loop, stopping early only where `Get` blocks. -/
def worker {Q : Type} (wq : RateLimitingInterface Q) (env : Env) : Nat → Q → List Event × Q
  | 0, q => ([], q)
  | n + 1, q =>
    match workerIteration wq env q with
    | none => ([], q)
    | some (evs, q1) => (evs ++ (worker wq env n q1).1, (worker wq env n q1).2)

/-! ## Event handlers registered in `main` -/

/-- Source: `AddFunc` (main.go:108-116); `keyFunc` stands for
`cache.DeletionHandlingMetaNamespaceKeyFunc`. -/
def AddFunc {Q Obj : Type} (wq : RateLimitingInterface Q) (keyFunc : Obj → Except String String)
    (obj : Obj) (q : Q) : List Event × Q :=
  match keyFunc obj with
  | Except.error err => ([Event.Printf "Couldn't get key for object %+v: %v" err], q)
  | Except.ok key => ([Event.Add key], wq.Add q key)

/-- Source: `DeleteFunc` (main.go:118-125). -/
def DeleteFunc {Q Obj : Type} (wq : RateLimitingInterface Q)
    (keyFunc : Obj → Except String String) (obj : Obj) (q : Q) : List Event × Q :=
  match keyFunc obj with
  | Except.error err => ([Event.Printf "Couldn't get key for object %+v: %v" err], q)
  | Except.ok key => ([Event.Add key], wq.Add q key)

/-- The struct `cache.ResourceEventHandlerFuncs`: each callback may be nil. -/
structure ResourceEventHandlerFuncs (Q Obj : Type) where
  AddFunc : Option (Obj → Q → List Event × Q)
  UpdateFunc : Option (Obj → Obj → Q → List Event × Q)
  DeleteFunc : Option (Obj → Q → List Event × Q)

/-- The handler literal passed to `cache.NewIndexerInformer` (main.go:107-126):
`AddFunc` and `DeleteFunc` are set, `UpdateFunc` is left nil. -/
def podHandlers {Q Obj : Type} (wq : RateLimitingInterface Q)
    (keyFunc : Obj → Except String String) : ResourceEventHandlerFuncs Q Obj :=
  ⟨some (AddFunc wq keyFunc), none, some (DeleteFunc wq keyFunc)⟩

/-- Dispatch of an add notification: calls `AddFunc` if it is not nil. -/
def ResourceEventHandlerFuncs.OnAdd {Q Obj : Type} (r : ResourceEventHandlerFuncs Q Obj)
    (obj : Obj) (q : Q) : List Event × Q :=
  match r.AddFunc with
  | some f => f obj q
  | none => ([], q)

/-- Dispatch of an update notification: calls `UpdateFunc` if it is not nil. -/
def ResourceEventHandlerFuncs.OnUpdate {Q Obj : Type} (r : ResourceEventHandlerFuncs Q Obj)
    (oldObj newObj : Obj) (q : Q) : List Event × Q :=
  match r.UpdateFunc with
  | some f => f oldObj newObj q
  | none => ([], q)

/-- Dispatch of a delete notification: calls `DeleteFunc` if it is not nil. -/
def ResourceEventHandlerFuncs.OnDelete {Q Obj : Type} (r : ResourceEventHandlerFuncs Q Obj)
    (obj : Obj) (q : Q) : List Event × Q :=
  match r.DeleteFunc with
  | some f => f obj q
  | none => ([], q)

/-! ## Observations on traces -/

/-- Calls on the work queue. -/
def Event.isQueueOp : Event → Bool
  | Event.Get _ _ => true
  | Event.Done _ => true
  | Event.Add _ => true
  | Event.AddRateLimited _ => true
  | _ => false

/-- Calls on the resource store (dynamic client). -/
def Event.isStoreCall : Event → Bool
  | Event.Create _ _ => true
  | Event.Delete _ _ => true
  | Event.List _ => true
  | _ => false

/-- Mutating calls on the resource store. -/
def Event.isMutation : Event → Bool
  | Event.Create _ _ => true
  | Event.Delete _ _ => true
  | _ => false

/-- Identifier of the derived resource a mutating call is aimed at:
`metadata.name` of a created object, the name given to `Delete`. -/
def Event.target : Event → Option Value
  | Event.Create obj _ => some obj.metadataName
  | Event.Delete name _ => some (Value.str name)
  | _ => none

/-- Queue calls of a trace, in order. -/
def queueOps (evs : List Event) : List Event := evs.filter Event.isQueueOp

/-- Store calls of a trace, in order. -/
def storeCalls (evs : List Event) : List Event := evs.filter Event.isStoreCall

/-- Mutating store calls of a trace, in order. -/
def mutations (evs : List Event) : List Event := evs.filter Event.isMutation

/-- Lowercase hexadecimal digit, `0-9` or `a-f`. -/
def isLowerHex (c : Char) : Bool :=
  ('0' ≤ c && c ≤ '9') || ('a' ≤ c && c ≤ 'f')

/-! ## The work queue -/

/-- Modelled from the spec: the Change Queue of section 4.2, whose code
(`k8s.io/client-go/util/workqueue`) is not part of the source file. A set of
pending keys with FIFO order, the keys in flight, the keys re-added while in
flight, and the shutdown flag. -/
structure WorkQueue where
  pending : List String
  inflight : List String
  deferred : List String
  shuttingDown : Bool
deriving DecidableEq, Repr

/-- Modelled from the spec: the queue created in `main` by
`workqueue.NewNamedRateLimitingQueue`, with nothing pending or in flight. -/
def NewNamedRateLimitingQueue : WorkQueue := ⟨[], [], [], false⟩

/-- Modelled from the spec: `Add(key)`, an idempotent enqueue. No-op if the
key is already pending; a re-add while the key is in flight is deferred until
`Done`; otherwise the key joins the end of the FIFO. -/
def WorkQueue.Add (q : WorkQueue) (key : String) : WorkQueue :=
  if key ∈ q.pending then q
  else if key ∈ q.inflight then
    if key ∈ q.deferred then q else { q with deferred := q.deferred ++ [key] }
  else { q with pending := q.pending ++ [key] }

/-- Modelled from the spec: `Get() -> (key, shuttingDown)`. Returns the oldest
pending key and marks it in flight; reports shutdown when nothing is pending
and the queue is shut down; blocks (`none`) otherwise. -/
def WorkQueue.Get (q : WorkQueue) : Option ((String × Bool) × WorkQueue) :=
  match q.pending with
  | key :: rest => some ((key, false), { q with pending := rest, inflight := key :: q.inflight })
  | [] => if q.shuttingDown then some (("", true), q) else none

/-- Modelled from the spec: `Done(key)` marks the key no longer in flight and
enqueues it again if it was re-added meanwhile. -/
def WorkQueue.Done (q : WorkQueue) (key : String) : WorkQueue :=
  if key ∈ q.deferred then
    { q with pending := q.pending ++ [key], inflight := q.inflight.erase key,
             deferred := q.deferred.erase key }
  else { q with inflight := q.inflight.erase key }

/-- Modelled from the spec: `ShutDown()`. -/
def WorkQueue.ShutDown (q : WorkQueue) : WorkQueue := { q with shuttingDown := true }

/-- Modelled from the spec: the Change Queue as the interface value stored in
`workQueue`. -/
def changeQueue : RateLimitingInterface WorkQueue :=
  ⟨WorkQueue.Add, WorkQueue.Get, WorkQueue.Done⟩

/-- Calling `Add(key)` on the Change Queue `n` times in a row. -/
def addTimes (key : String) : Nat → WorkQueue → WorkQueue
  | 0, q => q
  | n + 1, q => addTimes key n (q.Add key)

/-! ## Fixtures -/

/-- A queue double that answers `Get` from a script and blocks at its end. -/
def scriptedQueue : RateLimitingInterface (List (String × Bool)) :=
  ⟨fun q _ => q, fun q => match q with | [] => none | r :: rest => some (r, rest), fun q _ => q⟩

/-- A queue double that is shut down and drained: every `Get` returns
`shuttingDown = true`. -/
def closedQueue : RateLimitingInterface Unit :=
  ⟨fun q _ => q, fun q => some (("", true), q), fun q _ => q⟩

/-- Collaborators with a fixed content: an indexer holding `pods`, a store
whose `Create` and `Delete` both answer `mutErr` and whose `List` answers
`listing`. -/
def envOf (pods : List (String × Pod)) (mutErr : Option String)
    (listing : Except String (List Unstructured)) : Env :=
  ⟨fun key =>
      match pods.lookup key with
      | some p => ⟨some p, true, none⟩
      | none => ⟨none, false, none⟩,
    fun _ => mutErr, fun _ => mutErr, listing⟩

/-- The pod of scenario 1: `default/pod-a`, address `10.0.0.5`, id `uid-1`. -/
def podA : Pod := ⟨"pod-a", "10.0.0.5", "uid-1"⟩

/-- First of two 72-byte ASCII strings with the same MD5 digest. -/
def collidingKeyA : String :=
  "TEXTCOLLBYfGiJUETHQ4hAcKSMd5zYpgqf1YRDhkmxHkhPWptrkoyz28wnI9V0aHeAuaKnak"

/-- Second of the two strings; it differs from the first in byte 21 (`E` for `A`). -/
def collidingKeyB : String :=
  "TEXTCOLLBYfGiJUETHQ4hEcKSMd5zYpgqf1YRDhkmxHkhPWptrkoyz28wnI9V0aHeAuaKnak"

/-! ## Facts about the digest and its hexadecimal form -/

theorem leBytes_length (n x : Nat) : (leBytes n x).length = n := by
  simp [leBytes]

theorem leBytes_lt (n x : Nat) : ∀ v ∈ leBytes n x, v < 256 := by
  intro v hv
  simp only [leBytes, List.mem_map] at hv
  obtain ⟨j, _, rfl⟩ := hv
  exact Nat.mod_lt _ (by norm_num)

theorem md5Sum_length (msg : List Nat) : (md5Sum msg).length = 16 := by
  simp [md5Sum, leBytes_length]

theorem md5Sum_lt (msg : List Nat) : ∀ v ∈ md5Sum msg, v < 256 := by
  intro v hv
  simp only [md5Sum, List.mem_append] at hv
  rcases hv with ((h | h) | h) | h <;> exact leBytes_lt _ _ v h

theorem hexEncode_length (bs : List Nat) : (hexEncode bs).length = 2 * bs.length := by
  induction bs with
  | nil => rfl
  | cons v vs ih => simp [hexEncode, ih]; omega

theorem hextable_isLowerHex : ∀ i : Fin 16, isLowerHex (hextable.getD i.val '0') = true := by
  decide

theorem hextable_injective :
    ∀ i j : Fin 16, hextable.getD i.val '0' = hextable.getD j.val '0' → i = j := by
  decide

theorem hexEncode_isLowerHex (bs : List Nat) (hbs : ∀ v ∈ bs, v < 256) :
    ∀ c ∈ hexEncode bs, isLowerHex c = true := by
  induction bs with
  | nil => intro c hc; simp [hexEncode] at hc
  | cons v vs ih =>
    intro c hc
    have hv : v < 256 := hbs v (List.mem_cons_self _ _)
    simp only [hexEncode, List.mem_cons] at hc
    rcases hc with rfl | rfl | hc
    · exact hextable_isLowerHex ⟨v / 16, by omega⟩
    · exact hextable_isLowerHex ⟨v % 16, by omega⟩
    · exact ih (fun w hw => hbs w (List.mem_cons_of_mem _ hw)) c hc

theorem hexEncode_injective (xs ys : List Nat) (hxs : ∀ v ∈ xs, v < 256)
    (hys : ∀ v ∈ ys, v < 256) (h : hexEncode xs = hexEncode ys) : xs = ys := by
  induction xs generalizing ys with
  | nil =>
    cases ys with
    | nil => rfl
    | cons w ws => simp [hexEncode] at h
  | cons v vs ih =>
    cases ys with
    | nil => simp [hexEncode] at h
    | cons w ws =>
      have hv : v < 256 := hxs v (List.mem_cons_self _ _)
      have hw : w < 256 := hys w (List.mem_cons_self _ _)
      simp only [hexEncode, List.cons.injEq] at h
      obtain ⟨h1, h2, h3⟩ := h
      have e1 := hextable_injective ⟨v / 16, by omega⟩ ⟨w / 16, by omega⟩ h1
      have e2 := hextable_injective ⟨v % 16, by omega⟩ ⟨w % 16, by omega⟩ h2
      have e1v : v / 16 = w / 16 := congrArg Fin.val e1
      have e2v : v % 16 = w % 16 := congrArg Fin.val e2
      have hvw : v = w := by omega
      have htl := ih ws (fun u hu => hxs u (List.mem_cons_of_mem _ hu))
        (fun u hu => hys u (List.mem_cons_of_mem _ hu)) h3
      rw [hvw, htl]

set_option maxRecDepth 1000000 in
/-- The embedding of `crypto/md5` reproduces the test suite of RFC 1321 on
messages of one and of two blocks. -/
theorem md5V_test_suite :
    md5V "" = "d41d8cd98f00b204e9800998ecf8427e" ∧
      md5V "a" = "0cc175b9c0f1b6a831c399e269772661" ∧
      md5V "abc" = "900150983cd24fb0d6963f7d28e17f72" ∧
      md5V "message digest" = "f96b697d7cb7938d525a2f31aaf161d0" ∧
      md5V "abcdefghijklmnopqrstuvwxyz" = "c3fcd3d76192e4007dfb496cca67e13b" ∧
      md5V "12345678901234567890123456789012345678901234567890123456789012345678901234567890"
        = "57edf4a22be3c955ac49da2e2107b67a" := by
  decide

theorem md5V_eq_iff (k1 k2 : String) :
    md5V k1 = md5V k2 ↔ md5Sum (goBytes k1) = md5Sum (goBytes k2) := by
  constructor
  · intro h
    have h2 : hexEncode (md5Sum (goBytes k1)) = hexEncode (md5Sum (goBytes k2)) :=
      congrArg String.data h
    exact hexEncode_injective _ _ (md5Sum_lt _) (md5Sum_lt _) h2
  · intro h
    simp [md5V, h]

/-! ## Facts about one round of `worker` -/

theorem workerIteration_of_key {Q : Type} (wq : RateLimitingInterface Q) (env : Env)
    (q q1 : Q) (k : String) (hget : wq.Get q = some ((k, false), q1)) :
    workerIteration wq env q =
      some (Event.Get k false :: workerBody env k ++ [Event.Done k], wq.Done q1 k) := by
  simp [workerIteration, hget]

theorem workerIteration_of_shutdown {Q : Type} (wq : RateLimitingInterface Q) (env : Env)
    (q q1 : Q) (k : String) (hget : wq.Get q = some ((k, true), q1)) :
    workerIteration wq env q =
      some ([Event.Get k true, Event.Println ["queue shutdown"]], q1) := by
  simp [workerIteration, hget]

theorem filter_printlnObject (f : Event → Bool) (hf : ∀ o, f (Event.PrintlnObject o) = false)
    (items : List Unstructured) : (items.map Event.PrintlnObject).filter f = [] := by
  induction items with
  | nil => rfl
  | cons o os ih => simp [List.filter, hf, ih]

theorem queueOps_workerBody (env : Env) (k : String) : queueOps (workerBody env k) = [] := by
  unfold queueOps workerBody
  cases herr : (env.GetByKey k).err <;> cases hitem : (env.GetByKey k).item <;>
    cases hlist : env.List <;>
    simp [herr, hitem, hlist, List.filter, Event.isQueueOp, filter_printlnObject]

theorem mutations_workerBody (env : Env) (k : String) (hok : (env.GetByKey k).err = none) :
    mutations (workerBody env k) =
      match (env.GetByKey k).item with
      | some p =>
        [Event.Create
          (NewTestcr (Value.str (md5V k)) (Value.str p.Name) (Value.str p.PodIP) (Value.uid p.UID))
          (env.Create
            (NewTestcr (Value.str (md5V k)) (Value.str p.Name) (Value.str p.PodIP)
              (Value.uid p.UID)))]
      | none => [Event.Delete (md5V k) (env.Delete (md5V k))] := by
  unfold mutations workerBody
  cases hitem : (env.GetByKey k).item <;> cases hlist : env.List <;>
    simp [hok, hitem, hlist, List.filter, Event.isMutation, filter_printlnObject]

theorem mutations_cons_append_done (k : String) (body : List Event) :
    mutations (Event.Get k false :: body ++ [Event.Done k]) = mutations body := by
  simp [mutations, List.filter, Event.isMutation]

theorem queueOps_cons_append_done (k : String) (body : List Event) :
    queueOps (Event.Get k false :: body ++ [Event.Done k]) =
      Event.Get k false :: queueOps body ++ [Event.Done k] := by
  simp [queueOps, List.filter, Event.isQueueOp]

/-! ## Reconciliation of one key -/

/-- C1: a round of `worker` that dequeues key `k` without the shutdown signal
and whose cache lookup succeeds issues exactly one mutating store call, aimed
at `md5V k`: a `Create` whose `metadata.name` is `md5V k` (and no `Delete`)
when the cache holds a pod for `k`, a `Delete` of `md5V k` (and no `Create`)
when it holds none. Both target the same identifier. -/
theorem worker_one_mutation_on_md5V {Q : Type} (wq : RateLimitingInterface Q) (env : Env)
    (q q1 : Q) (k : String) (hget : wq.Get q = some ((k, false), q1))
    (hok : (env.GetByKey k).err = none) :
    ∃ evs q2, workerIteration wq env q = some (evs, q2) ∧
      (mutations evs).map Event.target = [some (Value.str (md5V k))] ∧
      (∀ p, (env.GetByKey k).item = some p →
        ∃ tct, tct.metadataName = Value.str (md5V k) ∧
          mutations evs = [Event.Create tct (env.Create tct)]) ∧
      ((env.GetByKey k).item = none →
        mutations evs = [Event.Delete (md5V k) (env.Delete (md5V k))]) := by
  refine ⟨_, _, workerIteration_of_key wq env q q1 k hget, ?_, ?_, ?_⟩
  · rw [mutations_cons_append_done, mutations_workerBody env k hok]
    cases (env.GetByKey k).item <;> simp [Event.target, NewTestcr]
  · intro p hp
    refine ⟨NewTestcr (Value.str (md5V k)) (Value.str p.Name) (Value.str p.PodIP)
      (Value.uid p.UID), rfl, ?_⟩
    rw [mutations_cons_append_done, mutations_workerBody env k hok, hp]
  · intro hnone
    rw [mutations_cons_append_done, mutations_workerBody env k hok, hnone]

/-- Witness of C1 at key `default/pod-a`, held by the cache. -/
theorem worker_one_mutation_on_md5V_witness :
    ∃ evs q2,
      workerIteration scriptedQueue (envOf [("default/pod-a", podA)] none (Except.ok []))
        [("default/pod-a", false)] = some (evs, q2) ∧
      (mutations evs).map Event.target = [some (Value.str (md5V "default/pod-a"))] ∧
      (∀ p, ((envOf [("default/pod-a", podA)] none (Except.ok [])).GetByKey
            "default/pod-a").item = some p →
        ∃ tct, tct.metadataName = Value.str (md5V "default/pod-a") ∧
          mutations evs = [Event.Create tct
            ((envOf [("default/pod-a", podA)] none (Except.ok [])).Create tct)]) ∧
      (((envOf [("default/pod-a", podA)] none (Except.ok [])).GetByKey
            "default/pod-a").item = none →
        mutations evs = [Event.Delete (md5V "default/pod-a")
          ((envOf [("default/pod-a", podA)] none (Except.ok [])).Delete
            (md5V "default/pod-a"))]) :=
  worker_one_mutation_on_md5V scriptedQueue (envOf [("default/pod-a", podA)] none (Except.ok []))
    [("default/pod-a", false)] [] "default/pod-a" rfl (by decide)

/-- C4: in a round of `worker` where `Get` returns key `k`, whatever the cache
lookup, the `Create`/`Delete` call and the `List` call answer, the queue calls
of the round are `Get` followed by exactly one `Done k` when there is no
shutdown signal (no `Add`, no rate-limited re-add; `Done k` is the last
action and the queue is left as `Done` leaves it), and `Get` alone, without
`Done`, when `Get` signals shutdown. -/
theorem worker_marks_key_done_once {Q : Type} (wq : RateLimitingInterface Q) (env : Env)
    (q q1 : Q) (k : String) (quit : Bool) (hget : wq.Get q = some ((k, quit), q1)) :
    ∃ evs, workerIteration wq env q = some (evs, if quit then q1 else wq.Done q1 k) ∧
      queueOps evs = Event.Get k quit :: (if quit then [] else [Event.Done k]) ∧
      (quit = false → evs.getLast? = some (Event.Done k)) := by
  cases quit with
  | true =>
    refine ⟨_, workerIteration_of_shutdown wq env q q1 k hget, ?_, ?_⟩
    · simp [queueOps, List.filter, Event.isQueueOp]
    · intro h; cases h
  | false =>
    refine ⟨_, workerIteration_of_key wq env q q1 k hget, ?_, ?_⟩
    · rw [queueOps_cons_append_done, queueOps_workerBody]; simp
    · intro _
      have h : Event.Get k false :: workerBody env k ++ [Event.Done k] =
          (Event.Get k false :: workerBody env k) ++ [Event.Done k] := rfl
      rw [h, List.getLast?_append]
      rfl

/-- Witness of C4: key `default/pod-a`, lookup finds the pod, `Create` and
`List` both fail. -/
theorem worker_marks_key_done_once_witness :
    ∃ evs,
      workerIteration scriptedQueue
        (envOf [("default/pod-a", podA)] (some "rejected") (Except.error "unavailable"))
        [("default/pod-a", false)] =
          some (evs, if false then [] else scriptedQueue.Done [] "default/pod-a") ∧
      queueOps evs = Event.Get "default/pod-a" false ::
        (if false then [] else [Event.Done "default/pod-a"]) ∧
      (false = false → evs.getLast? = some (Event.Done "default/pod-a")) :=
  worker_marks_key_done_once scriptedQueue
    (envOf [("default/pod-a", podA)] (some "rejected") (Except.error "unavailable"))
    [("default/pod-a", false)] [] "default/pod-a" false rfl

/-- C3 (behaviour of the code): the `return` taken on the shutdown signal
leaves only the anonymous function, so the `for` loop of `worker` goes on.
On a queue whose `Get` keeps reporting shutdown, `n` rounds of `worker` call
`Get` `n` times, for every `n`: after the first shutdown signal `worker`
dequeues again and never returns. -/
theorem worker_polls_after_shutdown {Q : Type} (wq : RateLimitingInterface Q) (env : Env)
    (q : Q) (key : String) (hshut : wq.Get q = some ((key, true), q)) (n : Nat) :
    queueOps (worker wq env n q).1 = List.replicate n (Event.Get key true) ∧
      (worker wq env n q).2 = q := by
  induction n with
  | zero => simp [worker, queueOps]
  | succ n ih =>
    simp only [worker, workerIteration_of_shutdown wq env q q key hshut]
    refine ⟨?_, ih.2⟩
    have h := ih.1
    simp only [queueOps] at h ⊢
    simp [List.filter, Event.isQueueOp, List.replicate_succ, h]

/-- Witness of the C3 theorem: three rounds on the shut-down, drained queue. -/
theorem worker_polls_after_shutdown_witness :
    queueOps (worker closedQueue (envOf [] none (Except.ok [])) 3 ()).1 =
        List.replicate 3 (Event.Get "" true) ∧
      (worker closedQueue (envOf [] none (Except.ok [])) 3 ()).2 = () :=
  worker_polls_after_shutdown closedQueue (envOf [] none (Except.ok [])) () "" rfl 3

/-! ## Key derivation -/

/-- C8: for every key string `s`, `md5V s` is the hex encoding of a 16-byte
digest: a string of exactly 32 characters, each a lowercase hexadecimal
digit. -/
theorem md5V_is_32_lower_hex (s : String) :
    md5V s = String.mk (hexEncode (md5Sum (goBytes s))) ∧
      (md5Sum (goBytes s)).length = 16 ∧
      (md5V s).length = 32 ∧
      ∀ c ∈ (md5V s).data, isLowerHex c = true := by
  refine ⟨rfl, md5Sum_length _, ?_, ?_⟩
  · show (hexEncode (md5Sum (goBytes s))).length = 32
    rw [hexEncode_length, md5Sum_length]
  · exact hexEncode_isLowerHex _ (md5Sum_lt _)

set_option maxRecDepth 1000000 in
/-- C7 (counterexample): two different keys with the same derived identifier. -/
theorem md5V_collision :
    collidingKeyA ≠ collidingKeyB ∧ md5V collidingKeyA = md5V collidingKeyB := by
  decide

/-- C7 (amended): the identifier is a faithful copy of the 16-byte digest, so
two keys whose MD5 digests differ never get the same identifier. -/
theorem md5V_ne_of_digest_ne (k1 k2 : String)
    (h : md5Sum (goBytes k1) ≠ md5Sum (goBytes k2)) : md5V k1 ≠ md5V k2 :=
  fun h2 => h ((md5V_eq_iff k1 k2).mp h2)

set_option maxRecDepth 1000000 in
/-- Witness of amended C7 at keys `default/pod-a` and `default/pod-b`. -/
theorem md5V_ne_of_digest_ne_witness : md5V "default/pod-a" ≠ md5V "default/pod-b" :=
  md5V_ne_of_digest_ne "default/pod-a" "default/pod-b" (by decide)

/-! ## Payload and store errors at concrete inputs -/

set_option maxRecDepth 1000000 in
/-- C2 (behaviour of the code): for key `default/pod-a` and the cached pod
named `pod-a`, address `10.0.0.5`, id `uid-1`, the payload given to `Create`
has the hash of the key in `spec.podname`, the pod name in `spec.podip`, the
address in `spec.poduid` and the id in `spec.podkey`; the key is in no field. -/
theorem worker_payload_for_pod_a :
    (workerIteration scriptedQueue (envOf [("default/pod-a", podA)] none (Except.ok []))
        [("default/pod-a", false)]).map (fun r => mutations r.1) =
      some [Event.Create
        { kind := "Testcr"
          apiVersion := "stable.example.com/v1"
          metadataName := Value.str "17da392ac4c59d99c80025a16d8cf7d0"
          metadataNamespace := "default"
          specPodip := Value.str "pod-a"
          specPoduid := Value.str "10.0.0.5"
          specPodkey := Value.uid "uid-1"
          specPodname := Value.str "17da392ac4c59d99c80025a16d8cf7d0" }
        none] := by
  decide

set_option maxRecDepth 1000000 in
/-- C5 (behaviour of the code): when `Create` (first round below) or `Delete`
(second round) answers the error `rejected`, the round prints nothing about
it and still calls `List` and prints the listing before `Done`. -/
theorem worker_discards_store_error :
    workerIteration scriptedQueue
        (envOf [("default/pod-a", podA)] (some "rejected") (Except.ok []))
        [("default/pod-a", false)] =
      some ([Event.Get "default/pod-a" false,
             Event.GetByKey "default/pod-a" ⟨some podA, true, none⟩,
             Event.Println ["add: ", "default/pod-a"],
             Event.Create
               (NewTestcr (Value.str "17da392ac4c59d99c80025a16d8cf7d0") (Value.str "pod-a")
                 (Value.str "10.0.0.5") (Value.uid "uid-1"))
               (some "rejected"),
             Event.List none,
             Event.Println ["\ncurrent list:"],
             Event.Done "default/pod-a"], []) ∧
    workerIteration scriptedQueue (envOf [] (some "rejected") (Except.ok []))
        [("default/pod-a", false)] =
      some ([Event.Get "default/pod-a" false,
             Event.GetByKey "default/pod-a" ⟨none, false, none⟩,
             Event.Println ["delete: ", "default/pod-a"],
             Event.Delete "17da392ac4c59d99c80025a16d8cf7d0" (some "rejected"),
             Event.List none,
             Event.Println ["\ncurrent list:"],
             Event.Done "default/pod-a"], []) := by
  decide

/-! ## The empty key -/

set_option maxRecDepth 1000000 in
/-- C6 (counterexample): `md5V` yields an identifier for the empty string,
and a round that dequeues the empty key, absent from the cache, issues a
`Delete` of that identifier. -/
theorem empty_key_is_hashed_and_deleted :
    md5V "" = "d41d8cd98f00b204e9800998ecf8427e" ∧
      (workerIteration scriptedQueue (envOf [] none (Except.ok [])) [("", false)]).map
          (fun r => mutations r.1) =
        some [Event.Delete "d41d8cd98f00b204e9800998ecf8427e" none] := by
  decide

set_option maxRecDepth 1000000 in
/-- C6 (amended): `md5V` is defined on the empty string, with value
`d41d8cd98f00b204e9800998ecf8427e`, and a round of `worker` that dequeues the
empty key and whose cache lookup succeeds treats it as any other key: it
issues exactly one mutating store call aimed at that identifier, a `Delete`
of it (and no `Create`) when the cache holds no object, a `Create` whose
`metadata.name` is that identifier (and no `Delete`) when it holds one, and
marks the key done as its last action. -/
theorem worker_reconciles_empty_key {Q : Type} (wq : RateLimitingInterface Q) (env : Env)
    (q q1 : Q) (hget : wq.Get q = some (("", false), q1))
    (hok : (env.GetByKey "").err = none) :
    md5V "" = "d41d8cd98f00b204e9800998ecf8427e" ∧
      ∃ evs, workerIteration wq env q = some (evs, wq.Done q1 "") ∧
        (mutations evs).map Event.target =
          [some (Value.str "d41d8cd98f00b204e9800998ecf8427e")] ∧
        ((env.GetByKey "").item = none →
          mutations evs =
            [Event.Delete "d41d8cd98f00b204e9800998ecf8427e"
              (env.Delete "d41d8cd98f00b204e9800998ecf8427e")]) ∧
        (∀ p, (env.GetByKey "").item = some p →
          mutations evs =
            [Event.Create
              (NewTestcr (Value.str "d41d8cd98f00b204e9800998ecf8427e") (Value.str p.Name)
                (Value.str p.PodIP) (Value.uid p.UID))
              (env.Create
                (NewTestcr (Value.str "d41d8cd98f00b204e9800998ecf8427e") (Value.str p.Name)
                  (Value.str p.PodIP) (Value.uid p.UID)))]) ∧
        queueOps evs = [Event.Get "" false, Event.Done ""] ∧
        evs.getLast? = some (Event.Done "") := by
  have hmd5 : md5V "" = "d41d8cd98f00b204e9800998ecf8427e" := by decide
  refine ⟨hmd5, _, workerIteration_of_key wq env q q1 "" hget, ?_, ?_, ?_, ?_, ?_⟩
  · rw [mutations_cons_append_done, mutations_workerBody env "" hok, hmd5]
    cases (env.GetByKey "").item <;> simp [Event.target, NewTestcr]
  · intro hnone
    rw [mutations_cons_append_done, mutations_workerBody env "" hok, hnone, hmd5]
  · intro p hp
    rw [mutations_cons_append_done, mutations_workerBody env "" hok, hp, hmd5]
  · rw [queueOps_cons_append_done, queueOps_workerBody]; rfl
  · have h : Event.Get "" false :: workerBody env "" ++ [Event.Done ""] =
        (Event.Get "" false :: workerBody env "") ++ [Event.Done ""] := rfl
    rw [h, List.getLast?_append]
    rfl

/-- Witness of amended C6: the empty key dequeued while the cache is empty. -/
theorem worker_reconciles_empty_key_witness :
    md5V "" = "d41d8cd98f00b204e9800998ecf8427e" ∧
      ∃ evs, workerIteration scriptedQueue (envOf [] none (Except.ok [])) [("", false)] =
          some (evs, scriptedQueue.Done [] "") ∧
        (mutations evs).map Event.target =
          [some (Value.str "d41d8cd98f00b204e9800998ecf8427e")] ∧
        (((envOf [] none (Except.ok [])).GetByKey "").item = none →
          mutations evs =
            [Event.Delete "d41d8cd98f00b204e9800998ecf8427e"
              ((envOf [] none (Except.ok [])).Delete "d41d8cd98f00b204e9800998ecf8427e")]) ∧
        (∀ p, ((envOf [] none (Except.ok [])).GetByKey "").item = some p →
          mutations evs =
            [Event.Create
              (NewTestcr (Value.str "d41d8cd98f00b204e9800998ecf8427e") (Value.str p.Name)
                (Value.str p.PodIP) (Value.uid p.UID))
              ((envOf [] none (Except.ok [])).Create
                (NewTestcr (Value.str "d41d8cd98f00b204e9800998ecf8427e") (Value.str p.Name)
                  (Value.str p.PodIP) (Value.uid p.UID)))]) ∧
        queueOps evs = [Event.Get "" false, Event.Done ""] ∧
        evs.getLast? = some (Event.Done "") :=
  worker_reconciles_empty_key scriptedQueue (envOf [] none (Except.ok [])) [("", false)] []
    rfl rfl

/-! ## Event handlers -/

/-- C10: the add handler and the delete handler behave identically. When the
key of the notified object can be computed, the handler performs exactly one
`workQueue.Add` of that key and nothing else; when it cannot, the handler
makes no queue call and leaves the queue as it was; in both cases it makes no
store call. An update notification does nothing. -/
theorem handlers_enqueue_the_key {Q Obj : Type} (wq : RateLimitingInterface Q)
    (keyFunc : Obj → Except String String) (obj oldObj : Obj) (q : Q) :
    (podHandlers wq keyFunc).OnAdd obj q = (podHandlers wq keyFunc).OnDelete obj q ∧
      (∀ key, keyFunc obj = Except.ok key →
        (podHandlers wq keyFunc).OnAdd obj q = ([Event.Add key], wq.Add q key)) ∧
      (∀ err, keyFunc obj = Except.error err →
        queueOps ((podHandlers wq keyFunc).OnAdd obj q).1 = [] ∧
          ((podHandlers wq keyFunc).OnAdd obj q).2 = q) ∧
      storeCalls ((podHandlers wq keyFunc).OnAdd obj q).1 = [] ∧
      (podHandlers wq keyFunc).OnUpdate oldObj obj q = ([], q) := by
  refine ⟨rfl, ?_, ?_, ?_, rfl⟩
  · intro key hkey
    simp [podHandlers, ResourceEventHandlerFuncs.OnAdd, AddFunc, hkey]
  · intro err herr
    simp [podHandlers, ResourceEventHandlerFuncs.OnAdd, AddFunc, herr, queueOps, List.filter,
      Event.isQueueOp]
  · cases hk : keyFunc obj <;>
      simp [podHandlers, ResourceEventHandlerFuncs.OnAdd, AddFunc, hk, storeCalls, List.filter,
        Event.isStoreCall]

/-! ## Burst coalescing in the Change Queue -/

theorem WorkQueue.Add_idem (q : WorkQueue) (k : String) : (q.Add k).Add k = q.Add k := by
  unfold WorkQueue.Add
  by_cases hp : k ∈ q.pending
  · simp [hp]
  · by_cases hi : k ∈ q.inflight
    · by_cases hd : k ∈ q.deferred
      · simp [hp, hi, hd]
      · simp [hp, hi, hd]
    · simp [hp, hi]

theorem addTimes_succ (k : String) (n : Nat) (q : WorkQueue) :
    addTimes k (n + 1) q = q.Add k := by
  induction n generalizing q with
  | zero => rfl
  | succ n ih =>
    show addTimes k (n + 1) (q.Add k) = q.Add k
    rw [ih, WorkQueue.Add_idem]

theorem worker_blocked {Q : Type} (wq : RateLimitingInterface Q) (env : Env) (q : Q)
    (hblock : wq.Get q = none) (n : Nat) : worker wq env n q = ([], q) := by
  cases n with
  | zero => rfl
  | succ n => simp [worker, workerIteration, hblock]

theorem mutations_workerBody_length_le (env : Env) (k : String) :
    (mutations (workerBody env k)).length ≤ 1 := by
  cases herr : (env.GetByKey k).err with
  | none =>
    rw [mutations_workerBody env k herr]
    cases (env.GetByKey k).item <;> simp
  | some e =>
    unfold mutations workerBody
    simp [herr, List.filter, Event.isMutation]

/-- C9: on the Change Queue created in `main`, `N ≥ 1` calls of `Add(k)`
leave exactly one pending copy of `k` (on any queue state the burst has the
effect of a single `Add`). The worker then dequeues `k` once: however many
rounds `n ≥ 1` it is given, it performs one round for `k`, ending with
`Done(k)`, after which the queue is back to empty and `Get` blocks; that run
makes at most one `Create` or `Delete`, and exactly one when the cache lookup
succeeds. -/
theorem add_burst_is_dequeued_once (k : String) (N : Nat) (hN : 1 ≤ N) (env : Env)
    (n : Nat) (hn : 1 ≤ n) :
    (∀ q : WorkQueue, addTimes k N q = q.Add k) ∧
      (addTimes k N NewNamedRateLimitingQueue).pending = [k] ∧
      worker changeQueue env n (addTimes k N NewNamedRateLimitingQueue) =
        (Event.Get k false :: workerBody env k ++ [Event.Done k], NewNamedRateLimitingQueue) ∧
      queueOps (worker changeQueue env n (addTimes k N NewNamedRateLimitingQueue)).1 =
        [Event.Get k false, Event.Done k] ∧
      (mutations (worker changeQueue env n (addTimes k N NewNamedRateLimitingQueue)).1).length
        ≤ 1 ∧
      ((env.GetByKey k).err = none →
        (mutations
          (worker changeQueue env n (addTimes k N NewNamedRateLimitingQueue)).1).length = 1) ∧
      changeQueue.Get NewNamedRateLimitingQueue = none := by
  obtain ⟨N, rfl⟩ : ∃ m, N = m + 1 := ⟨N - 1, by omega⟩
  obtain ⟨n, rfl⟩ : ∃ m, n = m + 1 := ⟨n - 1, by omega⟩
  have hadd : addTimes k (N + 1) NewNamedRateLimitingQueue = ⟨[k], [], [], false⟩ := by
    rw [addTimes_succ]
    simp [WorkQueue.Add, NewNamedRateLimitingQueue]
  have hget : changeQueue.Get ⟨[k], [], [], false⟩ = some ((k, false), ⟨[], [k], [], false⟩) :=
    rfl
  have hdone : changeQueue.Done ⟨[], [k], [], false⟩ k = NewNamedRateLimitingQueue := by
    simp [changeQueue, WorkQueue.Done, NewNamedRateLimitingQueue]
  have hblock : changeQueue.Get NewNamedRateLimitingQueue = none := rfl
  have hrun : worker changeQueue env (n + 1) (addTimes k (N + 1) NewNamedRateLimitingQueue) =
      (Event.Get k false :: workerBody env k ++ [Event.Done k], NewNamedRateLimitingQueue) := by
    rw [hadd]
    simp only [worker, workerIteration_of_key changeQueue env _ _ k hget, hdone,
      worker_blocked changeQueue env _ hblock n, List.append_nil]
  refine ⟨fun q => addTimes_succ k N q, ?_, hrun, ?_, ?_, ?_, hblock⟩
  · rw [hadd]
  · rw [hrun, queueOps_cons_append_done, queueOps_workerBody]; rfl
  · rw [hrun, mutations_cons_append_done]
    exact mutations_workerBody_length_le env k
  · intro hok
    rw [hrun, mutations_cons_append_done, mutations_workerBody env k hok]
    cases (env.GetByKey k).item <;> simp

/-- Witness of C9: `N = 5` adds of `default/pod-a`, then three worker rounds. -/
theorem add_burst_is_dequeued_once_witness :
    (∀ q : WorkQueue, addTimes "default/pod-a" 5 q = q.Add "default/pod-a") ∧
      (addTimes "default/pod-a" 5 NewNamedRateLimitingQueue).pending = ["default/pod-a"] ∧
      worker changeQueue (envOf [("default/pod-a", podA)] none (Except.ok [])) 3
          (addTimes "default/pod-a" 5 NewNamedRateLimitingQueue) =
        (Event.Get "default/pod-a" false ::
            workerBody (envOf [("default/pod-a", podA)] none (Except.ok [])) "default/pod-a" ++
            [Event.Done "default/pod-a"],
          NewNamedRateLimitingQueue) ∧
      queueOps (worker changeQueue (envOf [("default/pod-a", podA)] none (Except.ok [])) 3
          (addTimes "default/pod-a" 5 NewNamedRateLimitingQueue)).1 =
        [Event.Get "default/pod-a" false, Event.Done "default/pod-a"] ∧
      (mutations (worker changeQueue (envOf [("default/pod-a", podA)] none (Except.ok [])) 3
          (addTimes "default/pod-a" 5 NewNamedRateLimitingQueue)).1).length ≤ 1 ∧
      (((envOf [("default/pod-a", podA)] none (Except.ok [])).GetByKey "default/pod-a").err
          = none →
        (mutations (worker changeQueue (envOf [("default/pod-a", podA)] none (Except.ok [])) 3
          (addTimes "default/pod-a" 5 NewNamedRateLimitingQueue)).1).length = 1) ∧
      changeQueue.Get NewNamedRateLimitingQueue = none :=
  add_burst_is_dequeued_once "default/pod-a" 5 (by decide)
    (envOf [("default/pod-a", podA)] none (Except.ok [])) 3 (by decide)

end PodInfoLookup
